import Mathlib

/-!
Verification of the pure-random-number repository (index.js together with the
revised module version embedded in README.md).

The JavaScript source works on IEEE doubles, but every value the claims are
about is an exact integer, so bounds are modelled as rationals (`ℚ`, capturing
fractional inputs such as 1.5) and the internal arithmetic as `Int`/`Nat`.
JavaScript bitwise operators (`|`, `&`, `<<`) coerce their operands to 32-bit
two's-complement integers and return a signed 32-bit result, while `>>>`
returns an unsigned 32-bit result; this is modelled explicitly below, since it
is exactly where the interesting behaviour of the program lives.
-/

/-- JavaScript ToUint32 applied to an exact integer: reduce modulo 2^32. -/
def uint32 (a : Int) : Nat := (a % 4294967296).toNat

/-- Reinterpret a 32-bit unsigned value as a signed 32-bit integer, the way
JavaScript presents the result of `|`, `&` and `<<`. -/
def int32OfUint32 (n : Nat) : Int :=
  if n < 2147483648 then (n : Int) else (n : Int) - 4294967296

/-- JavaScript bitwise OR on numbers. -/
def jsOr (a b : Int) : Int := int32OfUint32 (uint32 a ||| uint32 b)

/-- JavaScript bitwise AND on numbers. -/
def jsAnd (a b : Int) : Int := int32OfUint32 (uint32 a &&& uint32 b)

/-- JavaScript left shift on numbers: both operands go through ToUint32, the
shift count is taken modulo 32, and the result is reinterpreted as signed. -/
def jsShl (a b : Int) : Int :=
  int32OfUint32 ((uint32 a <<< (uint32 b % 32)) % 4294967296)

/-- Result record of calculateParameters (src/index.js, function
calculateParameters): bitsNeeded, bytesNeeded and the bitmask. -/
structure RngParams where
  bitsNeeded : Nat
  bytesNeeded : Nat
  mask : Int
  deriving DecidableEq, Repr

/-- The while loop of calculateParameters:

    while (range > 0) {
      if (bitsNeeded % 8 === 0) { bytesNeeded += 1 }
      bitsNeeded += 1
      mask = mask << 1 | 1
      range = range >>> 1
    }

`range >>> 1` is ToUint32 followed by one halving, modelled as
`range % 2^32 / 2`.  The loop is expressed with a fuel argument that only
bounds the iteration count; `calcLoopF_stable` proves the result does not
depend on the fuel as long as fuel ≥ range, so with the fuel chosen in
`calculateParameters` the fuel-out branch is never taken and the function is
exactly the unbounded JavaScript loop. -/
def calcLoopF (fuel : Nat) : Nat → Nat → Nat → Int → RngParams :=
  Nat.rec (motive := fun _ => Nat → Nat → Nat → Int → RngParams)
    (fun _ bits bytes mask => ⟨bits, bytes, mask⟩)
    (fun _ ih range bits bytes mask =>
      if range = 0 then ⟨bits, bytes, mask⟩
      else ih (range % 4294967296 / 2) (bits + 1)
        (if bits % 8 = 0 then bytes + 1 else bytes) (jsOr (jsShl mask 1) 1))
    fuel

theorem calcLoopF_zero (range bits bytes : Nat) (mask : Int) :
    calcLoopF 0 range bits bytes mask = ⟨bits, bytes, mask⟩ := rfl

theorem calcLoopF_succ (fuel range bits bytes : Nat) (mask : Int) :
    calcLoopF (fuel + 1) range bits bytes mask =
      if range = 0 then ⟨bits, bytes, mask⟩
      else calcLoopF fuel (range % 4294967296 / 2) (bits + 1)
        (if bits % 8 = 0 then bytes + 1 else bytes) (jsOr (jsShl mask 1) 1) := rfl

/-- calculateParameters from src/index.js (identical in the README.md module
version): bitsNeeded, bytesNeeded and mask start at 0, 0 and 1. -/
def calculateParameters (range : Nat) : RngParams :=
  calcLoopF range range 0 0 1

theorem calcLoopF_range_zero (fuel bits bytes : Nat) (mask : Int) :
    calcLoopF fuel 0 bits bytes mask = ⟨bits, bytes, mask⟩ := by
  cases fuel with
  | zero => rfl
  | succ f => rw [calcLoopF_succ]; simp

/-- The fuel never matters as long as it is at least the current range: each
iteration at least halves the range, so `range` itself bounds the number of
iterations and `calculateParameters` computes the full JavaScript loop. -/
theorem calcLoopF_stable :
    ∀ f1 range, range ≤ f1 → ∀ f2, range ≤ f2 → ∀ bits bytes mask,
      calcLoopF f1 range bits bytes mask = calcLoopF f2 range bits bytes mask := by
  intro f1
  induction f1 with
  | zero =>
    intro range h1 f2 h2 bits bytes mask
    have : range = 0 := Nat.le_zero.mp h1
    subst this
    rw [calcLoopF_range_zero, calcLoopF_range_zero]
  | succ f ih =>
    intro range h1 f2 h2 bits bytes mask
    rcases Nat.eq_zero_or_pos range with h0 | h0
    · subst h0; rw [calcLoopF_range_zero, calcLoopF_range_zero]
    · obtain ⟨f2p, rfl⟩ : ∃ f2p, f2 = f2p + 1 := by
        cases f2 with
        | zero => omega
        | succ n => exact ⟨n, rfl⟩
      have hne : range ≠ 0 := Nat.pos_iff_ne_zero.mp h0
      rw [calcLoopF_succ, calcLoopF_succ, if_neg hne, if_neg hne]
      have hdec : range % 4294967296 / 2 ≤ f := by
        have := Nat.mod_le range 4294967296
        omega
      have hdec2 : range % 4294967296 / 2 ≤ f2p := by
        have := Nat.mod_le range 4294967296
        omega
      exact ih _ hdec _ hdec2 _ _ _

/-- Halving removes exactly one bit from the binary length. -/
theorem size_div_two (n : Nat) (h : 0 < n) :
    Nat.size n = Nat.size (n / 2) + 1 := by
  have hup : Nat.size n ≤ Nat.size (n / 2) + 1 := by
    apply Nat.size_le.mpr
    have h1 : n / 2 < 2 ^ Nat.size (n / 2) := Nat.lt_size_self (n / 2)
    have h2 : n ≤ 2 * (n / 2) + 1 := by omega
    calc n ≤ 2 * (n / 2) + 1 := h2
      _ < 2 * 2 ^ Nat.size (n / 2) := by omega
      _ = 2 ^ (Nat.size (n / 2) + 1) := (pow_succ' 2 _).symm
  have hlo : Nat.size (n / 2) + 1 ≤ Nat.size n := by
    have : Nat.size (n / 2) < Nat.size n := by
      apply Nat.lt_size.mpr
      cases hs : Nat.size (n / 2) with
      | zero => simpa using h
      | succ s =>
        have h3 : 2 ^ s ≤ n / 2 := Nat.lt_size.mp (by omega)
        calc 2 ^ (s + 1) = 2 * 2 ^ s := pow_succ' 2 s
          _ ≤ 2 * (n / 2) := by omega
          _ ≤ n := by omega
    omega
  omega

/-- Number of times the bytesNeeded counter fires during a run of the loop
that starts with bitsNeeded = bits and performs s iterations. -/
def cnt8 (bits : Nat) : Nat → Nat
  | 0 => 0
  | s + 1 => (if bits % 8 = 0 then 1 else 0) + cnt8 (bits + 1) s

theorem cnt8_eq (s bits : Nat) : cnt8 bits s = (bits + s + 7) / 8 - (bits + 7) / 8 := by
  induction s generalizing bits with
  | zero => simp [cnt8]
  | succ s ih =>
    rw [cnt8, ih (bits + 1)]
    by_cases h : bits % 8 = 0 <;> simp [h] <;> omega

/-- One execution of mask = mask << 1 | 1 on a mask of the form 2^k - 1 with
k ≤ 30 stays inside the positive int32 range and appends one low bit. -/
theorem jsMaskStep (k : Nat) (h1 : 1 ≤ k) (h2 : k ≤ 30) :
    jsOr (jsShl ((2 : Int) ^ k - 1) 1) 1 = 2 ^ (k + 1) - 1 := by
  interval_cases k <;> decide

/-- Full characterization of the calculateParameters loop on ranges below
2^31, as long as the mask stays inside the positive int32 range
(k + bit length ≤ 31): every iteration adds one bit to bitsNeeded, one low
bit to the mask, and fires the byte counter on bit positions divisible by
eight. -/
theorem calcLoopF_char :
    ∀ n : Nat, n < 2147483648 → ∀ fuel, n ≤ fuel → ∀ bits bytes k,
      1 ≤ k → k + Nat.size n ≤ 31 →
      calcLoopF fuel n bits bytes ((2 : Int) ^ k - 1) =
        ⟨bits + Nat.size n, bytes + cnt8 bits (Nat.size n),
          (2 : Int) ^ (k + Nat.size n) - 1⟩ := by
  intro n
  induction n using Nat.strong_induction_on with
  | _ n ih =>
    intro hn fuel hfuel bits bytes k hk1 hk2
    rcases Nat.eq_zero_or_pos n with h0 | h0
    · subst h0
      rw [calcLoopF_range_zero]
      simp [Nat.size_zero, cnt8]
    · have hne : n ≠ 0 := by omega
      obtain ⟨f, rfl⟩ : ∃ f, fuel = f + 1 := ⟨fuel - 1, by omega⟩
      rw [calcLoopF_succ, if_neg hne]
      have hmod : n % 4294967296 = n := Nat.mod_eq_of_lt (by omega)
      rw [hmod]
      have hsz : Nat.size n = Nat.size (n / 2) + 1 := size_div_two n h0
      have hszpos : 1 ≤ Nat.size n := Nat.size_pos.mpr h0
      rw [jsMaskStep k hk1 (by omega)]
      rw [ih (n / 2) (by omega) (by omega) f (by omega) (bits + 1)
        (if bits % 8 = 0 then bytes + 1 else bytes) (k + 1) (by omega) (by omega)]
      rw [hsz]
      simp only [RngParams.mk.injEq]
      refine ⟨by omega, ?_, ?_⟩
      · rw [cnt8]
        by_cases hb : bits % 8 = 0 <;> simp [hb] <;> omega
      · have he : k + 1 + Nat.size (n / 2) = k + (Nat.size (n / 2) + 1) := by omega
        rw [he]

/-- Closed form of calculateParameters on every range below 2^30: bitsNeeded
is the binary length of the range, bytesNeeded is its ceiling divided by
eight, and the mask carries one more low bit than bitsNeeded. -/
theorem calculateParameters_char (n : Nat) (h : n < 1073741824) :
    calculateParameters n =
      ⟨Nat.size n, (Nat.size n + 7) / 8, (2 : Int) ^ (Nat.size n + 1) - 1⟩ := by
  have h30 : n < 2 ^ 30 := by norm_num at h ⊢; omega
  have hs : Nat.size n ≤ 30 := Nat.size_le.mpr h30
  have hcc := calcLoopF_char n (by omega) n le_rfl 0 0 1 le_rfl (by omega)
  have h1 : (2 : Int) ^ 1 - 1 = 1 := by norm_num
  rw [h1] at hcc
  show calcLoopF n n 0 0 1 = _
  rw [hcc]
  simp only [RngParams.mk.injEq, Nat.zero_add]
  refine ⟨trivial, ?_, ?_⟩
  · rw [cnt8_eq]
    omega
  · have he : 1 + Nat.size n = Nat.size n + 1 := by omega
    rw [he]

/-- The byte-to-integer reduction loop shared by both module versions:

    let randomValue = 0
    for (let i = 0; i < bytesNeeded; i++) {
      randomValue |= (bytes[i] << (8 * i))
    }

An out-of-bounds read on a Uint8Array yields undefined, which ToInt32 turns
into 0, hence the getD default. -/
def composeBytes (bytes : List Nat) (n : Nat) : Int :=
  (List.range n).foldl
    (fun acc i => jsOr acc (jsShl (Int.ofNat (bytes.getD i 0)) (8 * i))) 0

/-- The value the specification assigns to the reduction step: byte i
contributes exactly bits [8i, 8i+8) of an unsigned integer (little-endian
composition), in exact arithmetic.  This definition follows the
specification's words and is compared against `composeBytes`, the
definition taken from the source. -/
def specLittleEndianValue (bytes : List Nat) (n : Nat) : Nat :=
  (List.range n).foldl (fun acc i => acc + bytes.getD i 0 * 2 ^ (8 * i)) 0

/-- The distinguishable failure kinds thrown by the two module versions.
src/index.js throws MinNotNumber … MaxOutOfSafeRange; the README.md module
version throws MinNotSafePositiveInteger, MaxNotSafePositiveInteger,
MinHigherThanMax and SeedTooShort. -/
inductive JsError where
  | MinNotNumber
  | MaxNotNumber
  | MinNotInteger
  | MaxNotInteger
  | MinHigherThanMax
  | MinOutOfSafeRange
  | MaxOutOfSafeRange
  | MinNotSafePositiveInteger
  | MaxNotSafePositiveInteger
  | SeedTooShort
  deriving DecidableEq, Repr

/-- JavaScript `minimum % 1 !== 0` is false exactly on integral numbers. -/
def qIsInt (q : ℚ) : Prop := q.den = 1

instance (q : ℚ) : Decidable (qIsInt q) := by unfold qIsInt; infer_instance

/-- The hand-rolled isSafeInteger of src/index.js: only a magnitude test,

    return !(n < -9007199254740991 || n > 9007199254740991)

(integrality has been checked separately before it is consulted). -/
def srcIsSafeInteger (q : ℚ) : Prop :=
  ¬(q < -9007199254740991 ∨ 9007199254740991 < q)

instance (q : ℚ) : Decidable (srcIsSafeInteger q) := by
  unfold srcIsSafeInteger; infer_instance

/-- Number.isSafeInteger, used by the README.md module version: an integer
whose magnitude is at most 2^53 - 1. -/
def jsIsSafeInteger (q : ℚ) : Prop :=
  qIsInt q ∧ -9007199254740991 ≤ q ∧ q ≤ 9007199254740991

instance (q : ℚ) : Decidable (jsIsSafeInteger q) := by
  unfold jsIsSafeInteger; infer_instance

/-- The validation prefix of randomNumber in src/index.js, in source order
(the null checks cannot fire on rational inputs and the generator is always
a function in this model):

    if (minimum % 1 !== 0) throw new RangeError('MinNotInteger')
    if (maximum % 1 !== 0) throw new RangeError('MaxNotInteger')
    if (!(maximum > minimum)) throw new RangeError('MinHigherThanMax')
    if (!isSafeInteger(minimum)) throw new RangeError(…)
    if (!isSafeInteger(maximum)) throw new RangeError(…)
-/
def srcValidate (minimum maximum : ℚ) : Option JsError :=
  if ¬qIsInt minimum then some .MinNotInteger
  else if ¬qIsInt maximum then some .MaxNotInteger
  else if ¬(maximum > minimum) then some .MinHigherThanMax
  else if ¬srcIsSafeInteger minimum then some .MinOutOfSafeRange
  else if ¬srcIsSafeInteger maximum then some .MaxOutOfSafeRange
  else none

/-- The while(true) loop of randomNumber in src/index.js.  `draws k` is the
byte buffer produced by the k-th generator call; the fuel bounds how many
iterations are inspected, with none meaning the loop had not yet returned
(the JavaScript loop is unbounded). -/
def sampleLoop (minimum : Int) (range : Nat) (p : RngParams)
    (draws : Nat → List Nat) : Nat → Nat → Option Int
  | _, 0 => none
  | k, fuel + 1 =>
    let randomValue := jsAnd (composeBytes (draws k) p.bytesNeeded) p.mask
    if randomValue ≤ (range : Int) then some (minimum + randomValue)
    else sampleLoop minimum range p draws (k + 1) fuel

/-- randomNumber of src/index.js: validation, then parameters for
range = maximum - minimum, then the rejection-sampling loop.  The
subtraction is modelled exactly on the integer parts (both bounds are
integers once validation passes, so `maximum - minimum` equals
`maximum.num - minimum.num`; every claim settled below stays far inside the
region where the double subtraction is exact). -/
def srcRandomNumber (minimum maximum : ℚ) (draws : Nat → List Nat)
    (fuel : Nat) : Except JsError (Option Int) :=
  match srcValidate minimum maximum with
  | some e => .error e
  | none =>
    let range : Nat := (maximum.num - minimum.num).toNat
    .ok (sampleLoop minimum.num range (calculateParameters range) draws 0 fuel)

deriving instance DecidableEq for Except

/-- randomSeedNumber from the module version embedded in README.md:

    export function randomSeedNumber (seed, minimum = 1, maximum = 6) {
      if (!Number.isSafeInteger(minimum) || minimum < 0) throw …
      if (!Number.isSafeInteger(maximum) || maximum < 0) throw …
      if (!(maximum > minimum)) throw new RangeError('MinHigherThanMax')
      const range = maximum - minimum
      const { bytesNeeded, mask } = calculateParameters(range)
      if (seed.length < bytesNeeded) throw new Error('Seed to short')
      … compose, mask, and either return minimum + randomValue or -1
    }

The toU8 buffer normalization is the identity here because seeds are already
modelled as byte lists. -/
def randomSeedNumber (seed : List Nat) (minimum maximum : ℚ) :
    Except JsError Int :=
  if ¬jsIsSafeInteger minimum ∨ minimum < 0 then .error .MinNotSafePositiveInteger
  else if ¬jsIsSafeInteger maximum ∨ maximum < 0 then .error .MaxNotSafePositiveInteger
  else if ¬(maximum > minimum) then .error .MinHigherThanMax
  else
    let range : Nat := (maximum.num - minimum.num).toNat
    let p := calculateParameters range
    if seed.length < p.bytesNeeded then .error .SeedTooShort
    else
      let randomValue := jsAnd (composeBytes seed p.bytesNeeded) p.mask
      if randomValue ≤ (range : Int) then .ok (minimum.num + randomValue)
      else .ok (-1)

/-- The while(true) loop of randomNumber in the README.md module version:

    while (true) {
      const bytes = await generator(bytesNeeded)
      const n = randomSeedNumber(bytes, minimum, maximum)
      if (n === -1) continue // re-roll
      return n
    }

A thrown error propagates out; none means the fuel ran out while the loop
was still re-rolling. -/
def rmLoop (minimum maximum : ℚ) (draws : Nat → List Nat) :
    Nat → Nat → Except JsError (Option Int)
  | _, 0 => .ok none
  | k, fuel + 1 =>
    match randomSeedNumber (draws k) minimum maximum with
    | .error e => .error e
    | .ok n => if n = -1 then rmLoop minimum maximum draws (k + 1) fuel
               else .ok (some n)

/-- randomNumber from the README.md module version: the same validation as
randomSeedNumber, then the re-rolling loop. -/
def rmRandomNumber (minimum maximum : ℚ) (draws : Nat → List Nat)
    (fuel : Nat) : Except JsError (Option Int) :=
  if ¬jsIsSafeInteger minimum ∨ minimum < 0 then .error .MinNotSafePositiveInteger
  else if ¬jsIsSafeInteger maximum ∨ maximum < 0 then .error .MaxNotSafePositiveInteger
  else if ¬(maximum > minimum) then .error .MinHigherThanMax
  else rmLoop minimum maximum draws 0 fuel

theorem composeBytes_zero (bytes : List Nat) : composeBytes bytes 0 = 0 := rfl

theorem composeBytes_succ (bytes : List Nat) (n : Nat) :
    composeBytes bytes (n + 1) =
      jsOr (composeBytes bytes n) (jsShl (Int.ofNat (bytes.getD n 0)) (8 * n)) := by
  unfold composeBytes
  rw [List.range_succ, List.foldl_append, List.foldl_cons, List.foldl_nil]

/-- The reduction loop reads a byte list only through its first n entries. -/
theorem composeBytes_congr (s1 s2 : List Nat) (n : Nat)
    (h : ∀ i, i < n → s1.getD i 0 = s2.getD i 0) :
    composeBytes s1 n = composeBytes s2 n := by
  induction n with
  | zero => rw [composeBytes_zero, composeBytes_zero]
  | succ n ih =>
    rw [composeBytes_succ, composeBytes_succ, ih (fun i hi => h i (by omega)),
      h n (by omega)]

theorem getD_of_take_eq (s1 s2 : List Nat) (n i : Nat)
    (hl1 : n ≤ s1.length) (hl2 : n ≤ s2.length)
    (h : s1.take n = s2.take n) (hi : i < n) :
    s1.getD i 0 = s2.getD i 0 := by
  have e1 : s1.getD i 0 = (s1.take n).getD i 0 := by
    rw [List.getD_eq_getElem s1 0 (by omega),
      List.getD_eq_getElem (s1.take n) 0 (by simp; omega)]
    exact (List.getElem_take s1).symm
  have e2 : s2.getD i 0 = (s2.take n).getD i 0 := by
    rw [List.getD_eq_getElem s2 0 (by omega),
      List.getD_eq_getElem (s2.take n) 0 (by simp; omega)]
    exact (List.getElem_take s2).symm
  rw [e1, e2, h]

/-- Behaviour of randomSeedNumber once its validation passes and the seed is
long enough: the candidate is the masked little-endian reduction of the
first bytesNeeded seed bytes, and the function returns minimum + candidate
on acceptance and the -1 sentinel on rejection. -/
theorem randomSeedNumber_valid_eq (seed : List Nat) (mn mx : ℚ)
    (h1 : jsIsSafeInteger mn) (h2 : 0 ≤ mn)
    (h3 : jsIsSafeInteger mx) (h4 : 0 ≤ mx) (h5 : mn < mx)
    (h6 : ¬seed.length <
      (calculateParameters (mx.num - mn.num).toNat).bytesNeeded) :
    randomSeedNumber seed mn mx =
      .ok (if jsAnd
            (composeBytes seed
              (calculateParameters (mx.num - mn.num).toNat).bytesNeeded)
            (calculateParameters (mx.num - mn.num).toNat).mask ≤
            ((mx.num - mn.num).toNat : Int)
        then mn.num + jsAnd
            (composeBytes seed
              (calculateParameters (mx.num - mn.num).toNat).bytesNeeded)
            (calculateParameters (mx.num - mn.num).toNat).mask
        else -1) := by
  unfold randomSeedNumber
  rw [if_neg (not_or.mpr ⟨not_not_intro h1, not_lt.mpr h2⟩),
    if_neg (not_or.mpr ⟨not_not_intro h3, not_lt.mpr h4⟩),
    if_neg (not_not_intro h5)]
  simp only []
  rw [if_neg h6]
  exact (apply_ite (Except.ok : Int → Except JsError Int) _ _ _).symm

/-- Behaviour of randomSeedNumber when the seed is too short for the range:
the SeedTooShort failure, before any candidate is formed. -/
theorem randomSeedNumber_short_eq (seed : List Nat) (mn mx : ℚ)
    (h1 : jsIsSafeInteger mn) (h2 : 0 ≤ mn)
    (h3 : jsIsSafeInteger mx) (h4 : 0 ≤ mx) (h5 : mn < mx)
    (h6 : seed.length <
      (calculateParameters (mx.num - mn.num).toNat).bytesNeeded) :
    randomSeedNumber seed mn mx = .error .SeedTooShort := by
  unfold randomSeedNumber
  rw [if_neg (not_or.mpr ⟨not_not_intro h1, not_lt.mpr h2⟩),
    if_neg (not_or.mpr ⟨not_not_intro h3, not_lt.mpr h4⟩),
    if_neg (not_not_intro h5)]
  simp only []
  rw [if_pos h6]

/-- Claim C5: for every valid pair of bounds and every seed of sufficient
length, randomSeedNumber is one-shot and never loops: it returns
minimum + maskedValue when the masked candidate is at most
size = maximum - minimum, and returns the sentinel -1 — a normal return,
not a raised error — when the masked candidate exceeds size. -/
theorem randomSeedNumber_one_shot (seed : List Nat) (mn mx : ℚ)
    (h1 : jsIsSafeInteger mn) (h2 : 0 ≤ mn)
    (h3 : jsIsSafeInteger mx) (h4 : 0 ≤ mx) (h5 : mn < mx)
    (h6 : ¬seed.length <
      (calculateParameters (mx.num - mn.num).toNat).bytesNeeded) :
    (jsAnd (composeBytes seed
          (calculateParameters (mx.num - mn.num).toNat).bytesNeeded)
        (calculateParameters (mx.num - mn.num).toNat).mask ≤
        ((mx.num - mn.num).toNat : Int) →
      randomSeedNumber seed mn mx =
        .ok (mn.num + jsAnd (composeBytes seed
            (calculateParameters (mx.num - mn.num).toNat).bytesNeeded)
          (calculateParameters (mx.num - mn.num).toNat).mask)) ∧
    (¬jsAnd (composeBytes seed
          (calculateParameters (mx.num - mn.num).toNat).bytesNeeded)
        (calculateParameters (mx.num - mn.num).toNat).mask ≤
        ((mx.num - mn.num).toNat : Int) →
      randomSeedNumber seed mn mx = .ok (-1)) := by
  have he := randomSeedNumber_valid_eq seed mn mx h1 h2 h3 h4 h5 h6
  constructor
  · intro hc
    rw [he, if_pos hc]
  · intro hc
    rw [he, if_neg hc]

theorem randomSeedNumber_one_shot_witness :
    randomSeedNumber [3] 1 6 = .ok 4 :=
  ((randomSeedNumber_one_shot [3] 1 6 (by decide) (by decide) (by decide)
    (by decide) (by decide) (by decide)).1 (by decide)).trans (by decide)

/-- Claim C8: for every seed shorter than the bytesNeeded computed for the
given valid range, randomSeedNumber fails immediately with the
seed-too-short error — a failure distinct from the biased-draw -1 signal —
and no candidate value is produced from the seed. -/
theorem randomSeedNumber_rejects_short_seed (seed : List Nat) (mn mx : ℚ)
    (h1 : jsIsSafeInteger mn) (h2 : 0 ≤ mn)
    (h3 : jsIsSafeInteger mx) (h4 : 0 ≤ mx) (h5 : mn < mx)
    (h6 : seed.length <
      (calculateParameters (mx.num - mn.num).toNat).bytesNeeded) :
    randomSeedNumber seed mn mx = .error .SeedTooShort ∧
      ∀ v : Int, randomSeedNumber seed mn mx ≠ .ok v := by
  have he := randomSeedNumber_short_eq seed mn mx h1 h2 h3 h4 h5 h6
  refine ⟨he, fun v hc => ?_⟩
  rw [he] at hc
  exact Except.noConfusion hc

theorem randomSeedNumber_rejects_short_seed_witness :
    randomSeedNumber [] 1 6 = .error .SeedTooShort ∧
      randomSeedNumber [] 1 6 ≠ .ok (-1) :=
  ⟨(randomSeedNumber_rejects_short_seed [] 1 6 (by decide) (by decide)
      (by decide) (by decide) (by decide) (by decide)).1,
    (randomSeedNumber_rejects_short_seed [] 1 6 (by decide) (by decide)
      (by decide) (by decide) (by decide) (by decide)).2 (-1)⟩

/-- Claim C9: the result of randomSeedNumber depends only on the first
bytesNeeded bytes of the seed: for the same bounds, two sufficiently long
seeds that agree on their first bytesNeeded bytes yield identical results
(the same integer, or -1 for both); bytes beyond bytesNeeded never
influence the outcome.  No validity hypotheses are needed: on invalid
bounds both runs fail with the same error. -/
theorem randomSeedNumber_uses_only_needed_bytes (mn mx : ℚ)
    (s1 s2 : List Nat)
    (hl1 : ¬s1.length <
      (calculateParameters (mx.num - mn.num).toNat).bytesNeeded)
    (hl2 : ¬s2.length <
      (calculateParameters (mx.num - mn.num).toNat).bytesNeeded)
    (htake : s1.take (calculateParameters (mx.num - mn.num).toNat).bytesNeeded
      = s2.take (calculateParameters (mx.num - mn.num).toNat).bytesNeeded) :
    randomSeedNumber s1 mn mx = randomSeedNumber s2 mn mx := by
  by_cases g1 : ¬jsIsSafeInteger mn ∨ mn < 0
  · unfold randomSeedNumber
    rw [if_pos g1, if_pos g1]
  by_cases g2 : ¬jsIsSafeInteger mx ∨ mx < 0
  · unfold randomSeedNumber
    rw [if_neg g1, if_neg g1, if_pos g2, if_pos g2]
  by_cases g3 : ¬(mx > mn)
  · unfold randomSeedNumber
    rw [if_neg g1, if_neg g1, if_neg g2, if_neg g2, if_pos g3, if_pos g3]
  · obtain ⟨hs1, hn1⟩ := not_or.mp g1
    obtain ⟨hs2, hn2⟩ := not_or.mp g2
    have hcomp : composeBytes s1
          (calculateParameters (mx.num - mn.num).toNat).bytesNeeded =
        composeBytes s2
          (calculateParameters (mx.num - mn.num).toNat).bytesNeeded :=
      composeBytes_congr _ _ _ (fun i hi =>
        getD_of_take_eq s1 s2 _ i (not_lt.mp hl1) (not_lt.mp hl2) htake hi)
    rw [randomSeedNumber_valid_eq s1 mn mx (not_not.mp hs1) (not_lt.mp hn1)
        (not_not.mp hs2) (not_lt.mp hn2) (not_not.mp g3) hl1,
      randomSeedNumber_valid_eq s2 mn mx (not_not.mp hs1) (not_lt.mp hn1)
        (not_not.mp hs2) (not_lt.mp hn2) (not_not.mp g3) hl2,
      hcomp]

theorem randomSeedNumber_uses_only_needed_bytes_witness :
    randomSeedNumber [3, 7] 1 6 = randomSeedNumber [3, 200] 1 6 :=
  randomSeedNumber_uses_only_needed_bytes 1 6 [3, 7] [3, 200]
    (by decide) (by decide) (by decide)

theorem srcRandomNumber_of_validate_some (mn mx : ℚ) (draws : Nat → List Nat)
    (fuel : Nat) (e : JsError) (h : srcValidate mn mx = some e) :
    srcRandomNumber mn mx draws fuel = .error e := by
  unfold srcRandomNumber
  rw [h]

/-- Claim C6: for every pair of integer bounds with maximum ≤ minimum — both
the minimum > maximum case and the minimum == maximum case — the sampling
operations fail with the MinHigherThanMax error synchronously, before any
bytes are requested (the result is the same error for every generator and
every seed); equal bounds are an error, never a single-valued success.  The
README.md module operations additionally require their bounds to be safe
non-negative integers, which their earlier checks enforce first. -/
theorem min_higher_than_max_rejected (mn mx : ℚ)
    (hi1 : qIsInt mn) (hi2 : qIsInt mx) (hle : mx ≤ mn) :
    (∀ (draws : Nat → List Nat) (fuel : Nat),
      srcRandomNumber mn mx draws fuel = .error .MinHigherThanMax) ∧
    (jsIsSafeInteger mn → 0 ≤ mn → jsIsSafeInteger mx → 0 ≤ mx →
      (∀ seed : List Nat,
        randomSeedNumber seed mn mx = .error .MinHigherThanMax) ∧
      (∀ (draws : Nat → List Nat) (fuel : Nat),
        rmRandomNumber mn mx draws fuel = .error .MinHigherThanMax)) := by
  have hval : srcValidate mn mx = some .MinHigherThanMax := by
    unfold srcValidate
    rw [if_neg (not_not_intro hi1), if_neg (not_not_intro hi2),
      if_pos (not_lt.mpr hle)]
  refine ⟨fun draws fuel => srcRandomNumber_of_validate_some mn mx draws fuel
    _ hval, fun hs1 hn1 hs2 hn2 => ⟨fun seed => ?_, fun draws fuel => ?_⟩⟩
  · unfold randomSeedNumber
    rw [if_neg (not_or.mpr ⟨not_not_intro hs1, not_lt.mpr hn1⟩),
      if_neg (not_or.mpr ⟨not_not_intro hs2, not_lt.mpr hn2⟩),
      if_pos (not_lt.mpr hle)]
  · unfold rmRandomNumber
    rw [if_neg (not_or.mpr ⟨not_not_intro hs1, not_lt.mpr hn1⟩),
      if_neg (not_or.mpr ⟨not_not_intro hs2, not_lt.mpr hn2⟩),
      if_pos (not_lt.mpr hle)]

theorem min_higher_than_max_rejected_witness :
    srcRandomNumber 5 5 (fun _ => []) 3 = .error .MinHigherThanMax ∧
      randomSeedNumber [9] 5 5 = .error .MinHigherThanMax ∧
      rmRandomNumber 5 5 (fun _ => []) 3 = .error .MinHigherThanMax := by
  have h := min_higher_than_max_rejected 5 5 (by decide) (by decide)
    (by decide)
  exact ⟨h.1 (fun _ => []) 3,
    (h.2 (by decide) (by decide) (by decide) (by decide)).1 [9],
    (h.2 (by decide) (by decide) (by decide) (by decide)).2 (fun _ => []) 3⟩

/-- Claim C7, counterexample: the bound 10^16 is an integer outside the
safe-integer range, yet with maximum = 5 the randomNumber of src/index.js
fails with MinHigherThanMax — not with MinNotInteger, MaxNotInteger or the
safe-integer-bounds errors the claim names — because the ordering check
runs before the safe-range check. -/
theorem validation_order_counterexample :
    ¬srcIsSafeInteger 10000000000000000 ∧
      srcRandomNumber 10000000000000000 5 (fun _ => []) 1 =
        .error .MinHigherThanMax ∧
      JsError.MinHigherThanMax ≠ JsError.MinNotInteger ∧
      JsError.MinHigherThanMax ≠ JsError.MaxNotInteger ∧
      JsError.MinHigherThanMax ≠ JsError.MinOutOfSafeRange ∧
      JsError.MinHigherThanMax ≠ JsError.MaxOutOfSafeRange := by
  refine ⟨by decide, ?_, by decide, by decide, by decide, by decide⟩
  exact srcRandomNumber_of_validate_some _ _ _ _ _ (by decide)

/-- Claim C7, as amended: a fractional bound fails with MinNotInteger or
MaxNotInteger; an integer bound outside the safe range fails with the
safe-integer-bounds error provided maximum > minimum (otherwise the
MinHigherThanMax check fires first); the failure is synchronous — the same
error for every generator, before any bytes are requested — and every
exact safe-range integer bound, including negative ones, passes this
validation. -/
theorem validation_classification :
    (∀ (mn mx : ℚ) (draws : Nat → List Nat) (fuel : Nat), ¬qIsInt mn →
      srcRandomNumber mn mx draws fuel = .error .MinNotInteger) ∧
    (∀ (mn mx : ℚ) (draws : Nat → List Nat) (fuel : Nat),
      qIsInt mn → ¬qIsInt mx →
      srcRandomNumber mn mx draws fuel = .error .MaxNotInteger) ∧
    (∀ (mn mx : ℚ) (draws : Nat → List Nat) (fuel : Nat),
      qIsInt mn → qIsInt mx → mn < mx → ¬srcIsSafeInteger mn →
      srcRandomNumber mn mx draws fuel = .error .MinOutOfSafeRange) ∧
    (∀ (mn mx : ℚ) (draws : Nat → List Nat) (fuel : Nat),
      qIsInt mn → qIsInt mx → mn < mx → srcIsSafeInteger mn →
      ¬srcIsSafeInteger mx →
      srcRandomNumber mn mx draws fuel = .error .MaxOutOfSafeRange) ∧
    (∀ mn mx : ℚ, qIsInt mn → qIsInt mx → mn < mx → srcIsSafeInteger mn →
      srcIsSafeInteger mx → srcValidate mn mx = none) := by
  refine ⟨fun mn mx draws fuel h1 =>
      srcRandomNumber_of_validate_some _ _ _ _ _ ?_,
    fun mn mx draws fuel h1 h2 =>
      srcRandomNumber_of_validate_some _ _ _ _ _ ?_,
    fun mn mx draws fuel h1 h2 h3 h4 =>
      srcRandomNumber_of_validate_some _ _ _ _ _ ?_,
    fun mn mx draws fuel h1 h2 h3 h4 h5 =>
      srcRandomNumber_of_validate_some _ _ _ _ _ ?_,
    fun mn mx h1 h2 h3 h4 h5 => ?_⟩
  · unfold srcValidate
    rw [if_pos h1]
  · unfold srcValidate
    rw [if_neg (not_not_intro h1), if_pos h2]
  · unfold srcValidate
    rw [if_neg (not_not_intro h1), if_neg (not_not_intro h2),
      if_neg (not_not_intro h3), if_pos h4]
  · unfold srcValidate
    rw [if_neg (not_not_intro h1), if_neg (not_not_intro h2),
      if_neg (not_not_intro h3), if_neg (not_not_intro h4), if_pos h5]
  · unfold srcValidate
    rw [if_neg (not_not_intro h1), if_neg (not_not_intro h2),
      if_neg (not_not_intro h3), if_neg (not_not_intro h4),
      if_neg (not_not_intro h5)]

/-- The fractional bound 3/2, written as its reduced fraction so that the
rational literal stays kernel-computable. -/
def threeHalves : ℚ := ⟨3, 2, by norm_num, by norm_num⟩

theorem validation_classification_witness :
    srcRandomNumber threeHalves 6 (fun _ => []) 0 = .error .MinNotInteger ∧
      srcRandomNumber 1 threeHalves (fun _ => []) 0 =
        .error .MaxNotInteger ∧
      srcRandomNumber 10000000000000000 10000000000000002 (fun _ => []) 0 =
        .error .MinOutOfSafeRange ∧
      srcRandomNumber (-5) 10000000000000000 (fun _ => []) 0 =
        .error .MaxOutOfSafeRange ∧
      srcValidate (-5) 6 = none :=
  ⟨validation_classification.1 threeHalves 6 (fun _ => []) 0 (by decide),
    validation_classification.2.1 1 threeHalves (fun _ => []) 0 (by decide)
      (by decide),
    validation_classification.2.2.1 10000000000000000 10000000000000002
      (fun _ => []) 0 (by decide) (by decide) (by decide) (by decide),
    validation_classification.2.2.2.1 (-5) 10000000000000000 (fun _ => []) 0
      (by decide) (by decide) (by decide) (by decide) (by decide),
    validation_classification.2.2.2.2 (-5) 6 (by decide) (by decide)
      (by decide) (by decide) (by decide)⟩

theorem rmLoop_zero (mn mx : ℚ) (draws : Nat → List Nat) (k : Nat) :
    rmLoop mn mx draws k 0 = .ok none := rfl

theorem rmLoop_succ (mn mx : ℚ) (draws : Nat → List Nat) (k fuel : Nat) :
    rmLoop mn mx draws k (fuel + 1) =
      match randomSeedNumber (draws k) mn mx with
      | .error e => .error e
      | .ok n => if n = -1 then rmLoop mn mx draws (k + 1) fuel
                 else .ok (some n) := rfl

theorem rmLoop_succ_err (mn mx : ℚ) (draws : Nat → List Nat) (k fuel : Nat)
    (e : JsError) (hr : randomSeedNumber (draws k) mn mx = .error e) :
    rmLoop mn mx draws k (fuel + 1) = .error e := by
  rw [rmLoop_succ, hr]

theorem rmLoop_succ_ok (mn mx : ℚ) (draws : Nat → List Nat) (k fuel : Nat)
    (n : Int) (hr : randomSeedNumber (draws k) mn mx = .ok n) :
    rmLoop mn mx draws k (fuel + 1) =
      if n = -1 then rmLoop mn mx draws (k + 1) fuel else .ok (some n) := by
  rw [rmLoop_succ, hr]

/-- Invariant of the re-rolling loop: a successful return value was accepted
on some draw — it is minimum plus a masked candidate that passed the range
test — and it is not the -1 sentinel. -/
theorem rmLoop_ok_some (mn mx : ℚ) (draws : Nat → List Nat)
    (h1 : jsIsSafeInteger mn) (h2 : 0 ≤ mn)
    (h3 : jsIsSafeInteger mx) (h4 : 0 ≤ mx) (h5 : mn < mx) :
    ∀ fuel k v, rmLoop mn mx draws k fuel = .ok (some v) →
      v ≠ -1 ∧ ∃ j : Nat,
        jsAnd (composeBytes (draws j)
            (calculateParameters (mx.num - mn.num).toNat).bytesNeeded)
          (calculateParameters (mx.num - mn.num).toNat).mask ≤
          ((mx.num - mn.num).toNat : Int) ∧
        v = mn.num + jsAnd (composeBytes (draws j)
            (calculateParameters (mx.num - mn.num).toNat).bytesNeeded)
          (calculateParameters (mx.num - mn.num).toNat).mask := by
  intro fuel
  induction fuel with
  | zero =>
    intro k v h
    rw [rmLoop_zero] at h
    exact absurd (Except.ok.inj h) (by simp)
  | succ fuel ih =>
    intro k v h
    by_cases hlen : (draws k).length <
        (calculateParameters (mx.num - mn.num).toNat).bytesNeeded
    · rw [rmLoop_succ_err mn mx draws k fuel _
        (randomSeedNumber_short_eq (draws k) mn mx h1 h2 h3 h4 h5 hlen)] at h
      exact absurd h (by simp)
    · rw [rmLoop_succ_ok mn mx draws k fuel _
        (randomSeedNumber_valid_eq (draws k) mn mx h1 h2 h3 h4 h5 hlen)] at h
      by_cases hc : jsAnd (composeBytes (draws k)
            (calculateParameters (mx.num - mn.num).toNat).bytesNeeded)
          (calculateParameters (mx.num - mn.num).toNat).mask ≤
          ((mx.num - mn.num).toNat : Int)
      · rw [if_pos hc] at h
        by_cases hs : mn.num + jsAnd (composeBytes (draws k)
              (calculateParameters (mx.num - mn.num).toNat).bytesNeeded)
            (calculateParameters (mx.num - mn.num).toNat).mask = -1
        · rw [if_pos hs] at h
          exact ih (k + 1) v h
        · rw [if_neg hs] at h
          have hv : v = mn.num + jsAnd (composeBytes (draws k)
                (calculateParameters (mx.num - mn.num).toNat).bytesNeeded)
              (calculateParameters (mx.num - mn.num).toNat).mask :=
            (Option.some.inj (Except.ok.inj h)).symm
          exact ⟨by rw [hv]; exact hs, k, hc, hv⟩
      · rw [if_neg hc, if_pos (rfl : (-1 : Int) = -1)] at h
        exact ih (k + 1) v h

/-- Claim C10: randomNumber (README.md module version) never returns the -1
sentinel to its caller: whenever the one-shot extraction signals a biased
draw with -1 the loop requests fresh bytes and retries, so every value it
returns is minimum plus an accepted masked candidate (and in particular is
not -1). -/
theorem randomNumber_never_returns_sentinel (mn mx : ℚ)
    (draws : Nat → List Nat) (fuel : Nat) (v : Int)
    (h : rmRandomNumber mn mx draws fuel = .ok (some v)) :
    v ≠ -1 ∧ ∃ j : Nat,
      jsAnd (composeBytes (draws j)
          (calculateParameters (mx.num - mn.num).toNat).bytesNeeded)
        (calculateParameters (mx.num - mn.num).toNat).mask ≤
        ((mx.num - mn.num).toNat : Int) ∧
      v = mn.num + jsAnd (composeBytes (draws j)
          (calculateParameters (mx.num - mn.num).toNat).bytesNeeded)
        (calculateParameters (mx.num - mn.num).toNat).mask := by
  unfold rmRandomNumber at h
  by_cases g1 : ¬jsIsSafeInteger mn ∨ mn < 0
  · rw [if_pos g1] at h
    exact absurd h (by simp)
  by_cases g2 : ¬jsIsSafeInteger mx ∨ mx < 0
  · rw [if_neg g1, if_pos g2] at h
    exact absurd h (by simp)
  by_cases g3 : ¬(mx > mn)
  · rw [if_neg g1, if_neg g2, if_pos g3] at h
    exact absurd h (by simp)
  · rw [if_neg g1, if_neg g2, if_neg g3] at h
    obtain ⟨hs1, hn1⟩ := not_or.mp g1
    obtain ⟨hs2, hn2⟩ := not_or.mp g2
    exact rmLoop_ok_some mn mx draws (not_not.mp hs1) (not_lt.mp hn1)
      (not_not.mp hs2) (not_lt.mp hn2) (not_not.mp g3) fuel 0 v h

theorem randomNumber_never_returns_sentinel_witness :
    (4 : Int) ≠ -1 ∧ ∃ j : Nat,
      jsAnd (composeBytes [3]
          (calculateParameters ((6 : ℚ).num - (1 : ℚ).num).toNat).bytesNeeded)
        (calculateParameters ((6 : ℚ).num - (1 : ℚ).num).toNat).mask ≤
        ((((6 : ℚ).num - (1 : ℚ).num).toNat : Nat) : Int) ∧
      (4 : Int) = (1 : ℚ).num + jsAnd (composeBytes [3]
          (calculateParameters ((6 : ℚ).num - (1 : ℚ).num).toNat).bytesNeeded)
        (calculateParameters ((6 : ℚ).num - (1 : ℚ).num).toNat).mask :=
  randomNumber_never_returns_sentinel 1 6 (fun _ => [3]) 1 4 (by decide)

set_option maxRecDepth 8000 in
/-- Claim C1, exhibiting the code bug: for minimum = 0 and
maximum = 2^30 — both safe integers with maximum > minimum — a byte source
that always returns the four bytes [0, 0, 0, 255] makes randomNumber of
src/index.js return -16777216, which is below the minimum.  The mask for
this range overflows the 32-bit signed range to -1 and byte 3 shifted by 24
bits is negative, so the masked candidate is negative yet passes the
candidate ≤ range test. -/
theorem randomNumber_out_of_range_at_two_pow_30 :
    srcRandomNumber 0 1073741824 (fun _ => [0, 0, 0, 255]) 1 =
      .ok (some (-16777216)) ∧ (-16777216 : Int) < 0 := by
  constructor
  · decide
  · decide

set_option maxRecDepth 8000 in
/-- Claim C4, exhibiting the code bug: bytesNeeded = 4 arises for safe
ranges (already at range 2^24), yet on the four bytes [0, 0, 0, 128] the
reduction loop of the source yields the signed 32-bit value -2147483648
instead of the exact unsigned little-endian value 2147483648 demanded by
the specification: JavaScript `<<` and `|` truncate to 32-bit signed
integers. -/
theorem composeBytes_not_exact_little_endian :
    (calculateParameters 16777216).bytesNeeded = 4 ∧
      composeBytes [0, 0, 0, 128] 4 = -2147483648 ∧
      specLittleEndianValue [0, 0, 0, 128] 4 = 2147483648 ∧
      composeBytes [0, 0, 0, 128] 4 ≠
        ((specLittleEndianValue [0, 0, 0, 128] 4 : Nat) : Int) := by
  refine ⟨by decide, by decide, by decide, by decide⟩

/-- Claim C2, counterexample: already at size = 2 the computed mask is 7,
which is not smaller than 2 * (size + 1) = 6, and is not the minimal value
of the form 2^k - 1 covering 2 (that would be 3). -/
theorem calculateParameters_mask_exceeds_claimed_bound :
    (calculateParameters 2).mask = 7 ∧
      ¬(calculateParameters 2).mask < 2 * ((2 : Int) + 1) := by
  constructor
  · decide
  · decide

/-- Claim C2, as amended: for every size below 2^30 the mask still covers
the size, but only within a factor of four: size ≤ mask < 4 * (size + 1).
The mask carries one low bit more than necessary, so the accepted values
0..size occupy at least a quarter — not half — of the mask + 1 slots. -/
theorem calculateParameters_mask_bounds (n : Nat) (h : n < 1073741824) :
    (n : Int) ≤ (calculateParameters n).mask ∧
      (calculateParameters n).mask < 4 * ((n : Int) + 1) := by
  rw [calculateParameters_char n h]
  dsimp only
  constructor
  · have hn : n < 2 ^ Nat.size n := Nat.lt_size_self n
    have hni : (n : Int) < (2 : Int) ^ Nat.size n := by exact_mod_cast hn
    rw [pow_succ]
    omega
  · rcases Nat.eq_zero_or_pos n with h0 | h0
    · subst h0
      norm_num
    · obtain ⟨t, ht⟩ : ∃ t, Nat.size n = t + 1 :=
        ⟨Nat.size n - 1, by have := Nat.size_pos.mpr h0; omega⟩
      have h2t : 2 ^ t ≤ n := Nat.lt_size.mp (by omega)
      have h2ti : (2 : Int) ^ t ≤ (n : Int) := by exact_mod_cast h2t
      rw [ht, pow_succ, pow_succ]
      omega

theorem calculateParameters_mask_bounds_witness :
    ((6 : Nat) : Int) ≤ (calculateParameters 6).mask ∧
      (calculateParameters 6).mask < 4 * (((6 : Nat) : Int) + 1) :=
  calculateParameters_mask_bounds 6 (by norm_num)

/-- Claim C3, counterexample: at size = 6 the reported bitsNeeded is 3 —
the smallest bit count with 2^bits - 1 ≥ 6 — but the mask is 15, not
2^bitsNeeded - 1 = 7 as claimed. -/
theorem calculateParameters_mask_not_pow_bits :
    (calculateParameters 6).bitsNeeded = 3 ∧
      (calculateParameters 6).mask = 15 ∧
      (calculateParameters 6).mask ≠
        2 ^ (calculateParameters 6).bitsNeeded - 1 := by
  refine ⟨by decide, by decide, by decide⟩

/-- Claim C3, as amended: for every size below 2^30, bitsNeeded is the
smallest count of bits such that 2^bitsNeeded - 1 ≥ size and
bytesNeeded = ceil(bitsNeeded / 8), but the mask equals
2^(bitsNeeded + 1) - 1 — one bit wider than the claimed
2^bitsNeeded - 1; for size = 0 zero bits are reported (and the mask is 1,
under which 0 is the only accepted candidate). -/
theorem calculateParameters_spec (n : Nat) (h : n < 1073741824) :
    (n ≤ 2 ^ (calculateParameters n).bitsNeeded - 1) ∧
      (∀ k : Nat, n ≤ 2 ^ k - 1 → (calculateParameters n).bitsNeeded ≤ k) ∧
      ((calculateParameters n).bytesNeeded =
        ((calculateParameters n).bitsNeeded + 7) / 8) ∧
      ((calculateParameters n).mask =
        2 ^ ((calculateParameters n).bitsNeeded + 1) - 1) ∧
      (n = 0 → (calculateParameters n).bitsNeeded = 0) := by
  rw [calculateParameters_char n h]
  dsimp only
  refine ⟨?_, ?_, rfl, rfl, ?_⟩
  · have hn : n < 2 ^ Nat.size n := Nat.lt_size_self n
    omega
  · intro k hk
    have hp : 0 < 2 ^ k := Nat.pos_pow_of_pos k (by norm_num)
    exact Nat.size_le.mpr (by omega)
  · intro h0
    subst h0
    exact Nat.size_zero

theorem calculateParameters_spec_witness :
    5 ≤ 2 ^ (calculateParameters 5).bitsNeeded - 1 ∧
      (calculateParameters 5).bitsNeeded ≤ 3 ∧
      (calculateParameters 5).bytesNeeded =
        ((calculateParameters 5).bitsNeeded + 7) / 8 ∧
      (calculateParameters 5).mask =
        2 ^ ((calculateParameters 5).bitsNeeded + 1) - 1 :=
  ⟨(calculateParameters_spec 5 (by norm_num)).1,
    (calculateParameters_spec 5 (by norm_num)).2.1 3 (by norm_num),
    (calculateParameters_spec 5 (by norm_num)).2.2.1,
    (calculateParameters_spec 5 (by norm_num)).2.2.2.1⟩

/-- JavaScript x & m with a non-negative mask below 2^31 lands in
[0, mask], whatever the sign of x. -/
theorem jsAnd_bounds (x m : Int) (h0 : 0 ≤ m) (h1 : m < 2147483648) :
    0 ≤ jsAnd x m ∧ jsAnd x m ≤ m := by
  unfold jsAnd uint32 int32OfUint32
  have hm : m % 4294967296 = m := Int.emod_eq_of_lt h0 (by omega)
  rw [hm]
  have hand : (x % 4294967296).toNat &&& m.toNat ≤ m.toNat := Nat.and_le_right
  have hmn : m.toNat < 2147483648 := by omega
  rw [if_pos (by omega : (x % 4294967296).toNat &&& m.toNat < 2147483648)]
  constructor
  · exact Int.ofNat_nonneg _
  · have := Int.toNat_of_nonneg h0
    omega

/-- Every value the rejection loop of src/index.js returns lies in
[minimum, minimum + range], as long as the mask is a non-negative int32
value. -/
theorem sampleLoop_in_range (mn : Int) (range : Nat) (p : RngParams)
    (draws : Nat → List Nat) (h0 : 0 ≤ p.mask) (h1 : p.mask < 2147483648) :
    ∀ fuel k v, sampleLoop mn range p draws k fuel = some v →
      mn ≤ v ∧ v ≤ mn + range := by
  intro fuel
  induction fuel with
  | zero => intro k v h; exact absurd h (by simp [sampleLoop])
  | succ fuel ih =>
    intro k v h
    rw [sampleLoop] at h
    by_cases hc : jsAnd (composeBytes (draws k) p.bytesNeeded) p.mask ≤
        (range : Int)
    · rw [if_pos hc] at h
      have hv := Option.some.inj h
      have hb := jsAnd_bounds (composeBytes (draws k) p.bytesNeeded) p.mask
        h0 h1
      omega
    · rw [if_neg hc] at h
      exact ih (k + 1) v h

/-- Supporting result delimiting the C1 defect: whenever the span
maximum - minimum stays below 2^30, every value randomNumber of
src/index.js returns does lie in [minimum, maximum].  (At span 2^30 and
beyond this fails, see randomNumber_out_of_range_at_two_pow_30.) -/
theorem srcRandomNumber_in_range_below_two_pow_30 (mn mx : ℚ)
    (draws : Nat → List Nat) (fuel : Nat) (v : Int)
    (hrange : (mx.num - mn.num).toNat < 1073741824)
    (h : srcRandomNumber mn mx draws fuel = .ok (some v)) :
    mn.num ≤ v ∧ v ≤ mx.num := by
  unfold srcRandomNumber at h
  by_cases hv : ∃ e, srcValidate mn mx = some e
  · obtain ⟨e, hval⟩ := hv
    rw [hval] at h
    exact absurd h (by simp)
  have hval : srcValidate mn mx = none := by
    cases hv2 : srcValidate mn mx with
    | none => rfl
    | some e => exact absurd ⟨e, hv2⟩ hv
  rw [hval] at h
  have hlt : mn < mx := by
    by_contra hle
    unfold srcValidate at hval
    by_cases g1 : ¬qIsInt mn
    · rw [if_pos g1] at hval; exact Option.noConfusion hval
    by_cases g2 : ¬qIsInt mx
    · rw [if_neg g1, if_pos g2] at hval; exact Option.noConfusion hval
    rw [if_neg g1, if_neg g2, if_pos hle] at hval
    exact Option.noConfusion hval
  have hnum : mn.num < mx.num := by
    have hi1 : qIsInt mn := by
      by_contra g1
      unfold srcValidate at hval
      rw [if_pos g1] at hval
      exact Option.noConfusion hval
    have hi2 : qIsInt mx := by
      by_contra g2
      have g1 : ¬¬qIsInt mn := not_not_intro hi1
      unfold srcValidate at hval
      rw [if_neg g1, if_pos g2] at hval
      exact Option.noConfusion hval
    have e1 : (mn.num : ℚ) = mn := by
      rw [← Rat.num_div_den mn]
      unfold qIsInt at hi1
      rw [hi1]
      norm_num
    have e2 : (mx.num : ℚ) = mx := by
      rw [← Rat.num_div_den mx]
      unfold qIsInt at hi2
      rw [hi2]
      norm_num
    have : (mn.num : ℚ) < (mx.num : ℚ) := by rw [e1, e2]; exact hlt
    exact_mod_cast this
  have hmask := calculateParameters_char (mx.num - mn.num).toNat hrange
  have hs30 : Nat.size (mx.num - mn.num).toNat ≤ 30 :=
    Nat.size_le.mpr (by norm_num at hrange ⊢; omega)
  have hm0 : 0 ≤ (calculateParameters (mx.num - mn.num).toNat).mask := by
    rw [hmask]
    dsimp only
    have := pow_pos (by norm_num : (0 : Int) < 2)
      (Nat.size (mx.num - mn.num).toNat + 1)
    omega
  have hm1 : (calculateParameters (mx.num - mn.num).toNat).mask <
      2147483648 := by
    rw [hmask]
    dsimp only
    have : (2 : Int) ^ (Nat.size (mx.num - mn.num).toNat + 1) ≤ 2 ^ 31 :=
      pow_le_pow_right₀ (by norm_num) (by omega)
    norm_num at this ⊢
    omega
  have h2 : (Except.ok (sampleLoop mn.num (mx.num - mn.num).toNat
      (calculateParameters (mx.num - mn.num).toNat) draws 0 fuel) :
      Except JsError (Option Int)) = Except.ok (some v) := h
  have hloop := sampleLoop_in_range mn.num (mx.num - mn.num).toNat
    (calculateParameters (mx.num - mn.num).toNat) draws hm0 hm1 fuel 0 v
    (Except.ok.inj h2)
  have hts : ((mx.num - mn.num).toNat : Int) = mx.num - mn.num :=
    Int.toNat_of_nonneg (by omega)
  omega
